import Mathlib

/-!
# Verification of the ClientHunt admin-panel API client and auth store

A shallow embedding of the authenticated API request pipeline
(`src/lib/api/client.ts`), the auth API module, the Zustand auth store
(`src/store/authStore.ts`) and the users-page pagination, together with
theorems settling the specification claims about them.

Browser state (localStorage, sessionStorage, document.cookie) is passed
explicitly; the network is an oracle giving the successive HTTP responses of
the CSRF-token endpoint and of the requested endpoint, and every outgoing
fetch is recorded in an event trace.
-/

/-! ## JavaScript string primitives, modelled on lists of characters -/

/-- JS truthiness of a `string | null` value: `null` and `""` are falsy. -/
def jsT : Option String → Bool
  | none => false
  | some s => !(s == "")

/-- Is `pre` a leading segment of the second list (model of `String.startsWith`)? -/
def chPre : List Char → List Char → Bool
  | [], _ => true
  | _ :: _, [] => false
  | a :: as, b :: bs => a == b && chPre as bs

/-- Does `needle` occur inside `hay` (model of `String.includes`)? -/
def chSub (needle : List Char) : List Char → Bool
  | [] => needle.isEmpty
  | h :: t => chPre needle (h :: t) || chSub needle t

/-- JS `hay.includes(needle)`. -/
def jsIncludes (hay needle : String) : Bool := chSub needle.data hay.data

/-- JS `s.startsWith(pre)`. -/
def jsStartsWith (s pre : String) : Bool := chPre pre.data s.data

/-- Split a character list on a separator character; like JS `split`, the
result always has at least one (possibly empty) segment. -/
def splitChar (c : Char) : List Char → List (List Char)
  | [] => [[]]
  | x :: xs =>
    let r := splitChar c xs
    if x == c then [] :: r
    else
      match r with
      | [] => [[x]]
      | h :: t => (x :: h) :: t

/-- JS `s.split(c)` for a one-character separator. -/
def jsSplit (s : String) (c : Char) : List String :=
  (splitChar c s.data).map (fun l => String.mk l)

/-- JS `s.trim()`: strip whitespace from both ends. -/
def jsTrim (s : String) : String :=
  String.mk (((s.data.dropWhile Char.isWhitespace).reverse.dropWhile Char.isWhitespace).reverse)

/-- JS `s.toUpperCase()` (over the ASCII range the HTTP methods use). -/
def jsToUpper (s : String) : String := String.mk (s.data.map Char.toUpper)

/-- A character that is not `=`, not `;`, and not whitespace (a benign cookie
value character). -/
def plainChar (c : Char) : Bool := !(c == '=') && !(c == ';') && !c.isWhitespace

/-- A character that is not `;` and not whitespace. -/
def semiFree (c : Char) : Bool := !(c == ';') && !c.isWhitespace

/-! ## JSON values -/

/-- A parsed JSON document, as far as the client inspects one. -/
inductive Json where
  | jnull
  | jbool (b : Bool)
  | jnum (n : Int)
  | jstr (s : String)
  | jarr (elems : List Json)
  | jobj (fields : List (String × Json))

/-- Property access `j[k]` on a parsed JSON object. -/
def Json.getField : Json → String → Option Json
  | .jobj fs, k => (fs.find? (fun kv => kv.1 == k)).map (fun kv => kv.2)
  | _, _ => none

/-- A field that holds a JSON string, as the `detail` and `csrf_token` fields
the client reads do (they are string-typed in the `ApiError` and token
interfaces); a missing or non-string field reads as absent. -/
def Json.strField (j : Json) (k : String) : Option String :=
  match j.getField k with
  | some (.jstr s) => some s
  | _ => none

/-! ## Browser-held state -/

/-- The browser storage the client touches: durable `localStorage`, tab-scoped
`sessionStorage`, and `document.cookie`. -/
structure Browser where
  localStore : String → Option String
  sessionStore : String → Option String
  cookie : String

/-- `localStorage.setItem`. -/
def Browser.setLocal (b : Browser) (k v : String) : Browser :=
  { b with localStore := fun q => if q = k then some v else b.localStore q }

/-- `localStorage.removeItem`. -/
def Browser.removeLocal (b : Browser) (k : String) : Browser :=
  { b with localStore := fun q => if q = k then none else b.localStore q }

/-- `sessionStorage.setItem`. -/
def Browser.setSession (b : Browser) (k v : String) : Browser :=
  { b with sessionStore := fun q => if q = k then some v else b.sessionStore q }

/-- A browser with empty storages and no cookies. -/
def emptyBrowser : Browser := ⟨fun _ => none, fun _ => none, ""⟩

/-! ## HTTP responses and the network oracle -/

/-- An HTTP response as the client observes it: status line, `content-type`
header, raw body text, and the result of `JSON.parse` on that body
(`none` when the body is not valid JSON, e.g. when it is empty). -/
structure HttpResponse where
  status : Nat
  statusText : String
  contentType : Option String
  bodyText : String
  bodyJson : Option Json

/-- `response.ok`: status in the 2xx range. -/
def HttpResponse.ok (r : HttpResponse) : Bool := 200 ≤ r.status && r.status < 300

/-- The network: the n-th response of `GET /api/v1/csrf-token` and the n-th
response of the endpoint being requested. -/
structure Env where
  csrfResp : Nat → HttpResponse
  mainResp : Nat → HttpResponse

/-- One outgoing fetch: either the token-issuing GET (with its
`Authorization` header) or a fetch of the requested endpoint
(with its method and full header object). -/
inductive NetEvent where
  | csrfFetch (authHeader : String)
  | mainFetch (method : String) (headers : List (String × String))

/-- Is this trace event a fetch of the requested endpoint? -/
def NetEvent.isMain : NetEvent → Bool
  | .mainFetch _ _ => true
  | .csrfFetch _ => false

/-- Number of token-issuing fetches in a trace. -/
def countCsrf (tr : List NetEvent) : Nat :=
  (tr.filter (fun e => !e.isMain)).length

/-- The fetches of the requested endpoint, in order. -/
def mainEvents (tr : List NetEvent) : List NetEvent := tr.filter NetEvent.isMain

/-- How many times the requested endpoint was fetched. -/
def mainCount (tr : List NetEvent) : Nat := (mainEvents tr).length

/-! ## Headers -/

/-- Assignment `headers[k] = v` on a JS object used as a header map:
overwrite in place, or append a new key. -/
def setHeader : List (String × String) → String → String → List (String × String)
  | [], k, v => [(k, v)]
  | (k', v') :: t, k, v => if k' = k then (k, v) :: t else (k', v') :: setHeader t k v

/-- Read a header value. -/
def getHeader (hs : List (String × String)) (k : String) : Option String :=
  (hs.find? (fun kv => kv.1 = k)).map (fun kv => kv.2)

namespace Client

/-! ## `src/lib/api/client.ts` -/

/-- `getAuthToken`: read the bearer token from localStorage. -/
def getAuthToken (b : Browser) : Option String := b.localStore "auth_token"

/-- `setAuthToken`. -/
def setAuthToken (b : Browser) (token : String) : Browser := b.setLocal "auth_token" token

/-- `clearAuthTokens`: remove both durable tokens. -/
def clearAuthTokens (b : Browser) : Browser :=
  (b.removeLocal "auth_token").removeLocal "refresh_token"

/-- The cookie-reading half of `getCsrfToken` (lines 36–45): split
`document.cookie` on `;`, find the cookie whose trimmed text starts with
`csrf_token=`, and keep segment 1 of its split on `=`. -/
def cookieCsrfValue (cookie : String) : Option String :=
  let cookies := jsSplit cookie ';'
  match cookies.find? (fun c => jsStartsWith (jsTrim c) "csrf_token=") with
  | some csrfCookie => some ((jsSplit csrfCookie '=').getD 1 "")
  | none => none

/-- `getCsrfToken`: the sessionStorage copy if truthy, else the cookie value,
which is then cached in sessionStorage. -/
def getCsrfToken (b : Browser) : Option String × Browser :=
  let stored := b.sessionStore "csrf_token"
  if jsT stored then (stored, b)
  else
    match cookieCsrfValue b.cookie with
    | some token => (some token, b.setSession "csrf_token" token)
    | none => (none, b)

/-- `ensureCsrfToken`: return an existing token if truthy; otherwise, when a
bearer token is present, make one authenticated GET to `/api/v1/csrf-token`
and cache a truthy `csrf_token` from its JSON body; all failure paths
resolve to `null`. -/
def ensureCsrfToken (env : Env) (b : Browser) (tr : List NetEvent) :
    Option String × Browser × List NetEvent :=
  let g := getCsrfToken b
  if jsT g.1 then (g.1, g.2, tr)
  else
    let token := getAuthToken g.2
    if !jsT token then (none, g.2, tr)
    else
      let r := env.csrfResp (countCsrf tr)
      let tr1 := tr ++ [NetEvent.csrfFetch ("Bearer " ++ token.getD "")]
      if r.ok then
        match r.bodyJson with
        | some data =>
          match data.strField "csrf_token" with
          | some ct =>
            if ct ≠ "" then (some ct, g.2.setSession "csrf_token" ct, tr1)
            else (none, g.2, tr1)
          | none => (none, g.2, tr1)
        | none => (none, g.2, tr1)
      else (none, g.2, tr1)

/-- The token `ensureCsrfToken` extracts from a token-endpoint response: the
body's `csrf_token` when the response is ok, the body parses, and the field is
a non-empty string. -/
def tokenFromCsrfResp (r : HttpResponse) : Option String :=
  if r.ok then
    match r.bodyJson with
    | some data =>
      match data.strField "csrf_token" with
      | some ct => if ct ≠ "" then some ct else none
      | none => none
    | none => none
  else none

/-- What `apiRequest` throws (JS `throw`): an `ApiError`-shaped object, or a
JSON parse failure escaping from `response.json()` / `JSON.parse`. -/
inductive Thrown where
  | api (e : Json)
  | jsonErr

/-- The synthesized `detail` string `HTTP <status>: <statusText>`. -/
def synthDetail (r : HttpResponse) : String :=
  "HTTP " ++ toString r.status ++ ": " ++ r.statusText

/-- Request options: HTTP method and caller-supplied headers. -/
structure ReqOptions where
  method : Option String := none
  headers : List (String × String) := []

/-- `options.method?.toUpperCase() || 'GET'`. -/
def normMethod (m : Option String) : String :=
  match m with
  | none => "GET"
  | some s => if jsToUpper s = "" then "GET" else jsToUpper s

/-- `['POST', 'PUT', 'DELETE', 'PATCH'].includes(method)`. -/
def isMutating (m : String) : Bool := ["POST", "PUT", "DELETE", "PATCH"].contains m

/-- Header building (lines 98–105): JSON content type, caller overrides, then
the bearer `Authorization` header when a token is present. -/
def baseHeaders (b : Browser) (o : ReqOptions) : List (String × String) :=
  let token := getAuthToken b
  let headers := o.headers.foldl (fun h kv => setHeader h kv.1 kv.2)
    [("Content-Type", "application/json")]
  if jsT token then setHeader headers "Authorization" ("Bearer " ++ token.getD "") else headers

/-- Lines 110–115: `getCsrfToken()`, falling back to `ensureCsrfToken()`. -/
def csrfLookup (env : Env) (b : Browser) : Option String × Browser × List NetEvent :=
  let g := getCsrfToken b
  if jsT g.1 then (g.1, g.2, []) else ensureCsrfToken env g.2 []

/-- Lines 108–122: for mutating methods, resolve a CSRF token and attach the
`X-CSRF-Token` header, or record the `console.warn` (last component) when no
token was obtainable. -/
def attachCsrf (env : Env) (b : Browser) (headers : List (String × String)) (method : String) :
    List (String × String) × Browser × List NetEvent × Bool :=
  if isMutating method then
    let l := csrfLookup env b
    if jsT l.1 then (setHeader headers "X-CSRF-Token" (l.1.getD ""), l.2.1, l.2.2, false)
    else (headers, l.2.1, l.2.2, true)
  else (headers, b, [], false)

/-- The state of `apiRequest` just before the first fetch: final headers,
browser storage, trace of token fetches, and whether the missing-CSRF warning
was logged. -/
def afterAttach (env : Env) (b : Browser) (o : ReqOptions) :
    List (String × String) × Browser × List NetEvent × Bool :=
  attachCsrf env b (baseHeaders b o) (normMethod o.method)

/-- Line 168–169: `contentType && contentType.includes('application/json')`. -/
def ctIsJson (r : HttpResponse) : Bool :=
  jsT r.contentType && jsIncludes (r.contentType.getD "") "application/json"

/-- Success handling (lines 167–175): `response.json()` when the content type
mentions JSON, else `JSON.parse` of a non-empty body text, else `{}`. -/
def parseReturn (r : HttpResponse) : Except Thrown Json :=
  if ctIsJson r then
    match r.bodyJson with
    | some j => .ok j
    | none => .error .jsonErr
  else if r.bodyText = "" then .ok (Json.jobj [])
  else
    match r.bodyJson with
    | some j => .ok j
    | none => .error .jsonErr

/-- Lines 160–164: the non-retried error — the parsed body when it carries a
truthy `detail`, else a synthesized one. -/
def originalThrow (errorData : Json) (r : HttpResponse) : Thrown :=
  .api (if jsT (errorData.strField "detail") then errorData
        else Json.jobj [("detail", Json.jstr (synthDetail r))])

/-- Lines 149–154: the error thrown when the retry response is not ok. -/
def retryThrown (r2 : HttpResponse) : Thrown :=
  .api (r2.bodyJson.getD (Json.jobj [("detail", Json.jstr (synthDetail r2))]))

/-- Line 156: `return retryResponse.json()`. -/
def retryReturn (r2 : HttpResponse) : Except Thrown Json :=
  match r2.bodyJson with
  | some j => .ok j
  | none => .error .jsonErr

/-- The value `apiRequest` settles with, the final browser storage, the fetch
trace, and the missing-CSRF-warning flag. -/
structure ApiOutcome where
  result : Except Thrown Json
  browser : Browser
  trace : List NetEvent
  csrfWarned : Bool

/-- `apiRequest` (lines 92–176): build headers, attach a CSRF token for
mutating methods, fetch; on a 403 whose body's `detail` mentions `CSRF`,
obtain a token and (for non-GET methods) retry exactly once; otherwise throw
the `detail`-carrying error; parse 2xx bodies per `parseReturn`. -/
def apiRequest (env : Env) (b0 : Browser) (o : ReqOptions) : ApiOutcome :=
  let method := normMethod o.method
  let att := afterAttach env b0 o
  let headers := att.1
  let b1 := att.2.1
  let tr1 := att.2.2.1 ++ [NetEvent.mainFetch method headers]
  let r := env.mainResp 0
  let warned := att.2.2.2
  if r.ok then { result := parseReturn r, browser := b1, trace := tr1, csrfWarned := warned }
  else
    let errorData := r.bodyJson.getD (Json.jobj [])
    let detail := errorData.strField "detail"
    if r.status == 403 && jsT detail && jsIncludes (detail.getD "") "CSRF" then
      let ens := ensureCsrfToken env b1 tr1
      if jsT ens.1 && method != "GET" then
        let headers2 := setHeader headers "X-CSRF-Token" (ens.1.getD "")
        let r2 := env.mainResp 1
        let tr3 := ens.2.2 ++ [NetEvent.mainFetch method headers2]
        if r2.ok then
          { result := retryReturn r2, browser := ens.2.1, trace := tr3, csrfWarned := warned }
        else
          { result := .error (retryThrown r2), browser := ens.2.1, trace := tr3,
            csrfWarned := warned }
      else
        { result := .error (originalThrow errorData r), browser := ens.2.1, trace := ens.2.2,
          csrfWarned := warned }
    else
      { result := .error (originalThrow errorData r), browser := b1, trace := tr1,
        csrfWarned := warned }

/-- The `detail` carried by a thrown `ApiError`, when the outcome is one. -/
def resultErrDetail : Except Thrown Json → Option String
  | .error (.api e) => e.strField "detail"
  | _ => none

/-- Did the request end in a JSON parse failure? -/
def isJsonErr : Except Thrown Json → Bool
  | .error .jsonErr => true
  | _ => false

/-- The `ensureCsrfToken` outcome at the 403-retry point of `apiRequest`,
replayed from the same inputs (the claim C2's "a fresh CSRF token can be
obtained" condition). -/
def retryEnsureResult (env : Env) (b : Browser) (o : ReqOptions) : Option String :=
  let att := afterAttach env b o
  (ensureCsrfToken env att.2.1 (att.2.2.1 ++ [NetEvent.mainFetch (normMethod o.method) att.1])).1

/-- The `detail` field of the parsed body of the first response. -/
def firstDetail (env : Env) : Option String :=
  ((env.mainResp 0).bodyJson.getD (Json.jobj [])).strField "detail"

end Client

namespace AuthApi

/-! ## The authentication API module (`src/lib/api/auth.ts`)

The `fetch`/JSON-decode boundary of `login` and `getCurrentUser` is abstracted
as an `Except`-valued outcome argument; the token-persistence side effects on
browser storage are embedded exactly. -/

/-- The `User` record of the auth API (`is_admin?: boolean` is optional). -/
structure User where
  id : String
  email : String
  full_name : String
  is_admin : Option Bool

/-- The decoded login response body. `csrf_token` is also present on the wire
(spec §6) though absent from the TS `LoginResponse` interface. -/
structure LoginData where
  access_token : String
  refresh_token : Option String
  csrf_token : Option String
  user : User

/-- `login` (lines 21–55): on a non-ok response the parsed error is thrown
unchanged; on success the access token is stored, and the refresh and CSRF
tokens are stored when truthy. -/
def login (resp : Except Client.Thrown LoginData) (b : Browser) :
    Except Client.Thrown LoginData × Browser :=
  match resp with
  | .error e => (.error e, b)
  | .ok data =>
    let b1 := Client.setAuthToken b data.access_token
    let b2 := if jsT data.refresh_token then b1.setLocal "refresh_token" (data.refresh_token.getD "")
              else b1
    let b3 := if jsT data.csrf_token then b2.setSession "csrf_token" (data.csrf_token.getD "")
              else b2
    (.ok data, b3)

/-- `logout`: `clearAuthTokens()`. -/
def logout (b : Browser) : Browser := Client.clearAuthTokens b

end AuthApi

/-! ## The auth store (`src/store/authStore.ts`) -/

/-- The Zustand store state. -/
structure AuthState where
  user : Option AuthApi.User
  isAuthenticated : Bool
  isLoading : Bool
  error : Option String

/-- The store's initial state. -/
def initialAuthState : AuthState :=
  { user := none, isAuthenticated := false, isLoading := false, error := none }

namespace AuthStore

/-- The store's `login` action (lines 27–37): set loading, delegate to the
API `login`, and on success mark the session authenticated with the returned
user; on failure record `error?.detail || 'Login failed'` and rethrow. -/
def login (resp : Except Client.Thrown AuthApi.LoginData) (st : AuthState) (b : Browser) :
    AuthState × Browser × Except Client.Thrown Unit :=
  let st1 := { st with isLoading := true, error := none }
  match AuthApi.login resp b with
  | (.ok data, b1) =>
    ({ st1 with user := some data.user, isAuthenticated := true, isLoading := false }, b1, .ok ())
  | (.error e, b1) =>
    let errorMessage :=
      match e with
      | .api j =>
        match j.strField "detail" with
        | some d => if d ≠ "" then d else "Login failed"
        | none => "Login failed"
      | .jsonErr => "Login failed"
    ({ st1 with error := some errorMessage, isLoading := false }, b1, .error e)

/-- The store's `logout` action (lines 39–42). -/
def logout (st : AuthState) (b : Browser) : AuthState × Browser :=
  ({ st with user := none, isAuthenticated := false, error := none }, AuthApi.logout b)

/-- The store's `fetchUser` action (lines 44–59), over the outcome of
`getCurrentUser()`: keep the session only for a truthy `is_admin`; tear it
down (tokens cleared, store unauthenticated) otherwise or on any error. -/
def fetchUser (resp : Except Client.Thrown AuthApi.User) (st : AuthState) (b : Browser) :
    AuthState × Browser :=
  match resp with
  | .ok user =>
    if user.is_admin.getD false then
      ({ st with user := some user, isAuthenticated := true }, b)
    else
      ({ st with user := none, isAuthenticated := false }, AuthApi.logout b)
  | .error _ => ({ st with user := none, isAuthenticated := false }, AuthApi.logout b)

end AuthStore

namespace UsersPage

/-! ## The users page (`AdminUsersPage`) pagination -/

/-- `const limit = 20`. -/
def limit : Nat := 20

/-- `Math.ceil(total / limit)` on natural inputs. -/
def totalPages (total : Nat) : Nat := (total + limit - 1) / limit

/-- The Next button's `disabled={page >= totalPages}`. -/
def nextDisabled (page total : Nat) : Bool := decide (totalPages total ≤ page)

end UsersPage

/-! ## Spec-side definition for claim C6 -/

/-- Modelled from the spec's words (claim C6): the claimed resolution order of
the `X-CSRF-Token` value — (a) the session-cached value if present, (b)
otherwise the cookie value, (c) otherwise, iff a bearer token is present, the
truthy `csrf_token` of a single GET to the token-issuing endpoint, (d)
otherwise nothing. To be compared against the client's behavior. -/
def specCsrfResolution (env : Env) (b : Browser) : Option String :=
  let cached := b.sessionStore "csrf_token"
  if jsT cached then cached
  else if jsT (Client.cookieCsrfValue b.cookie) then Client.cookieCsrfValue b.cookie
  else if jsT (b.localStore "auth_token") then Client.tokenFromCsrfResp (env.csrfResp 0)
  else none

/-! ## Concrete instances used by counterexamples and witnesses -/

/-- A successful login response whose user is not an admin. -/
def nonAdminLoginData : AuthApi.LoginData :=
  { access_token := "tokA", refresh_token := some "tokR", csrf_token := some "tokC",
    user := { id := "u1", email := "eve@example.com", full_name := "Eve", is_admin := some false } }

/-- A 403 response whose JSON body's `detail` mentions CSRF. -/
def resp403csrf : HttpResponse :=
  { status := 403, statusText := "Forbidden", contentType := some "application/json",
    bodyText := "e", bodyJson := some (Json.jobj [("detail", Json.jstr "CSRF token invalid")]) }

/-- A 200 token-endpoint response issuing the CSRF token `"fresh"`. -/
def respFreshToken : HttpResponse :=
  { status := 200, statusText := "OK", contentType := some "application/json",
    bodyText := "t", bodyJson := some (Json.jobj [("csrf_token", Json.jstr "fresh")]) }

/-- A network whose requested endpoint always answers 403-CSRF while the
token endpoint issues fresh tokens. -/
def envCsrfReject : Env :=
  { csrfResp := fun _ => respFreshToken, mainResp := fun _ => resp403csrf }

/-- A browser holding only a bearer token. -/
def bearerOnlyBrowser : Browser := emptyBrowser.setLocal "auth_token" "tok"

/-- A 500 response whose JSON body carries an empty-string `detail`. -/
def respEmptyDetail : HttpResponse :=
  { status := 500, statusText := "Internal Server Error",
    contentType := some "application/json", bodyText := "e",
    bodyJson := some (Json.jobj [("detail", Json.jstr "")]) }

/-- A network whose requested endpoint answers with `respEmptyDetail`. -/
def envEmptyDetail : Env :=
  { csrfResp := fun _ => respEmptyDetail, mainResp := fun _ => respEmptyDetail }

/-- A 404 response with a JSON `detail` message. -/
def respNotFound : HttpResponse :=
  { status := 404, statusText := "Not Found", contentType := some "application/json",
    bodyText := "e", bodyJson := some (Json.jobj [("detail", Json.jstr "User not found")]) }

/-- A network whose requested endpoint answers with `respNotFound`. -/
def envNotFound : Env :=
  { csrfResp := fun _ => respNotFound, mainResp := fun _ => respNotFound }

/-- A 2xx response whose non-empty body is not JSON and whose content type is
not `application/json`. -/
def respPlainText : HttpResponse :=
  { status := 200, statusText := "OK", contentType := some "text/plain",
    bodyText := "hello", bodyJson := none }

/-- A network whose requested endpoint answers with `respPlainText`. -/
def envPlainText : Env :=
  { csrfResp := fun _ => respPlainText, mainResp := fun _ => respPlainText }

/-- A 2xx JSON response used to exercise the success path. -/
def respJsonDoc : HttpResponse :=
  { status := 200, statusText := "OK", contentType := some "application/json",
    bodyText := "d", bodyJson := some (Json.jobj [("users", Json.jarr []), ("total", Json.jnum 57)]) }

/-- A network whose requested endpoint answers with `respJsonDoc`. -/
def envJsonDoc : Env :=
  { csrfResp := fun _ => respJsonDoc, mainResp := fun _ => respJsonDoc }

/-- A 2xx response with an empty non-JSON body. -/
def respEmptyBody : HttpResponse :=
  { status := 204, statusText := "No Content", contentType := none,
    bodyText := "", bodyJson := none }

/-- A network whose token endpoint rejects with 401 and whose requested
endpoint answers 500 without a JSON body. -/
def envNoToken : Env :=
  { csrfResp := fun _ =>
      { status := 401, statusText := "Unauthorized", contentType := none,
        bodyText := "", bodyJson := none },
    mainResp := fun _ =>
      { status := 500, statusText := "Internal Server Error", contentType := none,
        bodyText := "", bodyJson := none } }

/-! ## General lemmas about the model -/

@[simp] theorem jsT_none : jsT none = false := rfl

@[simp] theorem jsT_some (s : String) : jsT (some s) = !(s == "") := rfl

@[simp] theorem setSession_cookie (b : Browser) (k v : String) :
    (b.setSession k v).cookie = b.cookie := rfl

@[simp] theorem setSession_localStore (b : Browser) (k v : String) :
    (b.setSession k v).localStore = b.localStore := rfl

@[simp] theorem setSession_sessionStore_self (b : Browser) (k v : String) :
    (b.setSession k v).sessionStore k = some v := by simp [Browser.setSession]

theorem getHeader_setHeader_self (hs : List (String × String)) (k v : String) :
    getHeader (setHeader hs k v) k = some v := by
  induction hs with
  | nil => simp [setHeader, getHeader]
  | cons kv t ih =>
    obtain ⟨k', v'⟩ := kv
    by_cases h : k' = k
    · simp [setHeader, getHeader, h]
    · simpa [setHeader, getHeader, h] using ih

theorem getHeader_setHeader_other (hs : List (String × String)) (k v q : String) (hq : q ≠ k) :
    getHeader (setHeader hs k v) q = getHeader hs q := by
  induction hs with
  | nil =>
    have : (decide (k = q)) = false := by simp [Ne.symm hq]
    simp [setHeader, getHeader, List.find?, this]
  | cons kv t ih =>
    obtain ⟨k', v'⟩ := kv
    simp only [setHeader]
    split
    · next h =>
      subst h
      have : (decide (k' = q)) = false := by simp [Ne.symm hq]
      simp [getHeader, List.find?, this]
    · next h =>
      simp only [getHeader, List.find?]
      cases hh : decide (k' = q)
      · simp only [hh]
        exact ih
      · simp [hh]

theorem getHeader_foldl_absent (l : List (String × String)) (hs : List (String × String))
    (q : String) (hq : ∀ kv ∈ l, kv.1 ≠ q) :
    getHeader (l.foldl (fun h kv => setHeader h kv.1 kv.2) hs) q = getHeader hs q := by
  induction l generalizing hs with
  | nil => rfl
  | cons kv t ih =>
    simp only [List.foldl_cons]
    rw [ih _ (fun x hx => hq x (List.mem_cons_of_mem _ hx))]
    exact getHeader_setHeader_other hs kv.1 kv.2 q (Ne.symm (hq kv (List.mem_cons_self _ _)))

theorem mainEvents_append (a b : List NetEvent) :
    mainEvents (a ++ b) = mainEvents a ++ mainEvents b := by
  simp [mainEvents, List.filter_append]

theorem mainEvents_csrf_single (s : String) :
    mainEvents [NetEvent.csrfFetch s] = [] := rfl

/-- `ensureCsrfToken` only ever appends token-endpoint fetches to the trace. -/
theorem ensure_trace (env : Env) (b : Browser) (tr : List NetEvent) :
    ∃ ext, (Client.ensureCsrfToken env b tr).2.2 = tr ++ ext ∧ mainEvents ext = [] := by
  simp only [Client.ensureCsrfToken]
  split
  · exact ⟨[], by simp, rfl⟩
  · split
    · exact ⟨[], by simp, rfl⟩
    · split
      · split
        · split
          · split
            · exact ⟨_, rfl, rfl⟩
            · exact ⟨_, rfl, rfl⟩
          · exact ⟨_, rfl, rfl⟩
        · exact ⟨_, rfl, rfl⟩
      · exact ⟨_, rfl, rfl⟩

/-- The CSRF lookup makes no fetch of the requested endpoint. -/
theorem csrfLookup_trace (env : Env) (b : Browser) :
    mainEvents (Client.csrfLookup env b).2.2 = [] := by
  simp only [Client.csrfLookup]
  split
  · rfl
  · obtain ⟨ext, he, hm⟩ := ensure_trace env (Client.getCsrfToken b).2 []
    simp [he, mainEvents_append, hm]

/-- The pre-fetch phase of `apiRequest` makes no fetch of the requested
endpoint. -/
theorem afterAttach_trace (env : Env) (b : Browser) (o : Client.ReqOptions) :
    mainEvents (Client.afterAttach env b o).2.2.1 = [] := by
  simp only [Client.afterAttach, Client.attachCsrf]
  split
  · split
    · exact csrfLookup_trace env b
    · exact csrfLookup_trace env b
  · rfl

theorem mainEvents_nil : mainEvents [] = [] := rfl

theorem mainEvents_main_single (m : String) (hd : List (String × String)) :
    mainEvents [NetEvent.mainFetch m hd] = [NetEvent.mainFetch m hd] := rfl

theorem mainEvents_cons_main (m : String) (hd : List (String × String)) (l : List NetEvent) :
    mainEvents (NetEvent.mainFetch m hd :: l) = NetEvent.mainFetch m hd :: mainEvents l := by
  simp [mainEvents, List.filter_cons, NetEvent.isMain]

/-- `apiRequest` fetches the requested endpoint once or twice: first with the
headers produced by the CSRF-attaching phase, and possibly once more. -/
theorem apiRequest_mainEvents (env : Env) (b : Browser) (o : Client.ReqOptions) :
    mainEvents (Client.apiRequest env b o).trace =
      [NetEvent.mainFetch (Client.normMethod o.method) (Client.afterAttach env b o).1]
    ∨ ∃ h2, mainEvents (Client.apiRequest env b o).trace =
      [NetEvent.mainFetch (Client.normMethod o.method) (Client.afterAttach env b o).1,
       NetEvent.mainFetch (Client.normMethod o.method) h2] := by
  have hatt := afterAttach_trace env b o
  obtain ⟨ext, he, hm⟩ := ensure_trace env (Client.afterAttach env b o).2.1
    ((Client.afterAttach env b o).2.2.1 ++
      [NetEvent.mainFetch (Client.normMethod o.method) (Client.afterAttach env b o).1])
  simp only [Client.apiRequest]
  split
  · left
    simp [mainEvents_append, hatt, mainEvents_main_single]
  · split
    · split
      · right
        refine ⟨setHeader (Client.afterAttach env b o).1 "X-CSRF-Token"
          ((Client.ensureCsrfToken env (Client.afterAttach env b o).2.1
            ((Client.afterAttach env b o).2.2.1 ++
              [NetEvent.mainFetch (Client.normMethod o.method)
                (Client.afterAttach env b o).1])).1.getD ""), ?_⟩
        split <;>
          simp [he, mainEvents_append, hatt, hm, mainEvents_main_single, mainEvents_cons_main,
            mainEvents_nil]
      · left
        simp [he, mainEvents_append, hatt, hm, mainEvents_main_single, mainEvents_cons_main]
    · left
      simp [mainEvents_append, hatt, mainEvents_main_single]

/-- No request is fetched more than twice. -/
theorem apiRequest_mainCount_le (env : Env) (b : Browser) (o : Client.ReqOptions) :
    mainCount (Client.apiRequest env b o).trace ≤ 2 := by
  rcases apiRequest_mainEvents env b o with h | ⟨h2, h⟩ <;> simp [mainCount, h]

/-- The first fetch of the requested endpoint carries the headers produced by
the CSRF-attaching phase. -/
theorem apiRequest_firstMain (env : Env) (b : Browser) (o : Client.ReqOptions) :
    (mainEvents (Client.apiRequest env b o).trace)[0]? =
      some (NetEvent.mainFetch (Client.normMethod o.method) (Client.afterAttach env b o).1) := by
  rcases apiRequest_mainEvents env b o with h | ⟨h2, h⟩ <;> simp [h]

@[simp] theorem countCsrf_nil : countCsrf [] = 0 := rfl

theorem countCsrf_csrf_single (s : String) : countCsrf [NetEvent.csrfFetch s] = 1 := rfl

theorem getCsrfToken_cached (b : Browser) (h : jsT (b.sessionStore "csrf_token") = true) :
    Client.getCsrfToken b = (b.sessionStore "csrf_token", b) := by
  simp [Client.getCsrfToken, h]

theorem getCsrfToken_cookie (b : Browser) (h : jsT (b.sessionStore "csrf_token") = false)
    (tv : String) (hc : Client.cookieCsrfValue b.cookie = some tv) :
    Client.getCsrfToken b = (some tv, b.setSession "csrf_token" tv) := by
  simp [Client.getCsrfToken, h, hc]

theorem getCsrfToken_miss (b : Browser) (h : jsT (b.sessionStore "csrf_token") = false)
    (hc : Client.cookieCsrfValue b.cookie = none) :
    Client.getCsrfToken b = (none, b) := by
  simp [Client.getCsrfToken, h, hc]

theorem ensure_truthy (env : Env) (b : Browser) (tr : List NetEvent)
    (h : jsT (Client.getCsrfToken b).1 = true) :
    Client.ensureCsrfToken env b tr
      = ((Client.getCsrfToken b).1, (Client.getCsrfToken b).2, tr) := by
  simp [Client.ensureCsrfToken, h]

theorem ensure_no_bearer (env : Env) (b : Browser) (tr : List NetEvent)
    (h : jsT (Client.getCsrfToken b).1 = false)
    (hb : jsT ((Client.getCsrfToken b).2.localStore "auth_token") = false) :
    Client.ensureCsrfToken env b tr = (none, (Client.getCsrfToken b).2, tr) := by
  simp [Client.ensureCsrfToken, Client.getAuthToken, h, hb]

theorem ensure_fetch (env : Env) (b : Browser) (tr : List NetEvent)
    (h : jsT (Client.getCsrfToken b).1 = false)
    (hb : jsT ((Client.getCsrfToken b).2.localStore "auth_token") = true) :
    (Client.ensureCsrfToken env b tr).1 = Client.tokenFromCsrfResp (env.csrfResp (countCsrf tr))
    ∧ (Client.ensureCsrfToken env b tr).2.2 = tr ++ [NetEvent.csrfFetch
        ("Bearer " ++ (((Client.getCsrfToken b).2.localStore "auth_token").getD ""))]
    ∧ (jsT (Client.tokenFromCsrfResp (env.csrfResp (countCsrf tr))) = true →
        (Client.ensureCsrfToken env b tr).2.1.sessionStore "csrf_token"
          = Client.tokenFromCsrfResp (env.csrfResp (countCsrf tr))) := by
  simp only [Client.ensureCsrfToken, Client.getAuthToken, h, hb, Bool.not_true,
    Bool.false_eq_true, if_false, Client.tokenFromCsrfResp]
  split
  · split
    · split
      · split
        · simp_all
        · simp_all
      · simp_all
    · simp_all
  · simp_all

/-- The CSRF lookup of `apiRequest`'s attach phase behaves exactly as the
spec's resolution order describes. -/
theorem csrfLookup_spec (env : Env) (b : Browser) :
    jsT (Client.csrfLookup env b).1 = jsT (specCsrfResolution env b)
    ∧ (jsT (specCsrfResolution env b) = true →
        (Client.csrfLookup env b).1 = specCsrfResolution env b
        ∧ (Client.csrfLookup env b).2.1.sessionStore "csrf_token" = specCsrfResolution env b)
    ∧ countCsrf (Client.csrfLookup env b).2.2 =
        (if jsT (b.sessionStore "csrf_token") || jsT (Client.cookieCsrfValue b.cookie) then 0
         else if jsT (b.localStore "auth_token") then 1 else 0) := by
  cases hcache : jsT (b.sessionStore "csrf_token") with
  | true =>
    have hg := getCsrfToken_cached b hcache
    have hlook : Client.csrfLookup env b = (b.sessionStore "csrf_token", b, []) := by
      simp [Client.csrfLookup, hg, hcache]
    have hspec : specCsrfResolution env b = b.sessionStore "csrf_token" := by
      simp [specCsrfResolution, hcache]
    rw [hlook, hspec]
    exact ⟨rfl, fun _ => ⟨rfl, rfl⟩, by simp [hcache]⟩
  | false =>
    cases hck : Client.cookieCsrfValue b.cookie with
    | none =>
      have hg := getCsrfToken_miss b hcache hck
      have hspec : specCsrfResolution env b =
          (if jsT (b.localStore "auth_token") then Client.tokenFromCsrfResp (env.csrfResp 0)
           else none) := by
        simp [specCsrfResolution, hcache, hck]
      cases hb : jsT (b.localStore "auth_token") with
      | false =>
        have he := ensure_no_bearer env b [] (by simp [hg]) (by rw [hg]; exact hb)
        have hlook : Client.csrfLookup env b = (none, b, []) := by
          simp [Client.csrfLookup, hg, he]
        rw [hlook, hspec]
        simp [hb, hcache, hck]
      | true =>
        have hf := ensure_fetch env b [] (by simp [hg]) (by rw [hg]; exact hb)
        simp only [countCsrf_nil] at hf
        have hlook : Client.csrfLookup env b = Client.ensureCsrfToken env b [] := by
          simp [Client.csrfLookup, hg]
        rw [hlook, hspec]
        simp only [hb, if_true]
        refine ⟨by rw [hf.1], fun ht => ⟨hf.1, hf.2.2 ht⟩, ?_⟩
        rw [hf.2.1]
        simp [hcache, hck, hb, countCsrf_csrf_single]
    | some tv =>
      have hg := getCsrfToken_cookie b hcache tv hck
      by_cases htv : tv = ""
      · subst htv
        have hck2 : Client.cookieCsrfValue (b.setSession "csrf_token" "").cookie = some "" := by
          rw [setSession_cookie]; exact hck
        have hg2 := getCsrfToken_cookie (b.setSession "csrf_token" "") (by simp) "" hck2
        have hspec : specCsrfResolution env b =
            (if jsT (b.localStore "auth_token") then Client.tokenFromCsrfResp (env.csrfResp 0)
             else none) := by
          simp [specCsrfResolution, hcache, hck]
        have hlook0 : Client.csrfLookup env b
            = Client.ensureCsrfToken env (b.setSession "csrf_token" "") [] := by
          simp [Client.csrfLookup, hg]
        cases hb : jsT (b.localStore "auth_token") with
        | false =>
          have he := ensure_no_bearer env (b.setSession "csrf_token" "") []
            (by simp [hg2]) (by rw [hg2]; simpa using hb)
          rw [hlook0, he, hspec]
          simp [hb, hcache, hck]
        | true =>
          have hf := ensure_fetch env (b.setSession "csrf_token" "") []
            (by simp [hg2]) (by rw [hg2]; simpa using hb)
          simp only [countCsrf_nil] at hf
          rw [hlook0, hspec]
          simp only [hb, if_true]
          refine ⟨by rw [hf.1], fun ht => ⟨hf.1, hf.2.2 ht⟩, ?_⟩
          rw [hf.2.1]
          simp [hcache, hck, hb, countCsrf_csrf_single]
      · have hlook : Client.csrfLookup env b = (some tv, b.setSession "csrf_token" tv, []) := by
          simp [Client.csrfLookup, hg, htv]
        have hspec : specCsrfResolution env b = some tv := by
          simp [specCsrfResolution, hcache, hck, htv]
        rw [hlook, hspec]
        refine ⟨by simp, fun _ => ⟨rfl, by simp⟩, by simp [hcache, hck, htv]⟩

theorem opt_getD_of_jsT {x : Option String} (h : jsT x = true) : some (x.getD "") = x := by
  cases x <;> simp_all

theorem afterAttach_mut_hit (env : Env) (b : Browser) (o : Client.ReqOptions)
    (hm : Client.isMutating (Client.normMethod o.method) = true)
    (ht : jsT (Client.csrfLookup env b).1 = true) :
    Client.afterAttach env b o =
      (setHeader (Client.baseHeaders b o) "X-CSRF-Token" ((Client.csrfLookup env b).1.getD ""),
       (Client.csrfLookup env b).2.1, (Client.csrfLookup env b).2.2, false) := by
  simp [Client.afterAttach, Client.attachCsrf, hm, ht]

theorem afterAttach_mut_miss (env : Env) (b : Browser) (o : Client.ReqOptions)
    (hm : Client.isMutating (Client.normMethod o.method) = true)
    (ht : jsT (Client.csrfLookup env b).1 = false) :
    Client.afterAttach env b o =
      (Client.baseHeaders b o,
       (Client.csrfLookup env b).2.1, (Client.csrfLookup env b).2.2, true) := by
  simp [Client.afterAttach, Client.attachCsrf, hm, ht]

theorem baseHeaders_no_csrf (b : Browser) (o : Client.ReqOptions)
    (hov : ∀ kv ∈ o.headers, kv.1 ≠ "X-CSRF-Token") :
    getHeader (Client.baseHeaders b o) "X-CSRF-Token" = none := by
  simp only [Client.baseHeaders]
  split
  · rw [getHeader_setHeader_other _ _ _ _ (by decide), getHeader_foldl_absent _ _ _ hov]
    decide
  · rw [getHeader_foldl_absent _ _ _ hov]
    decide

theorem apiRequest_warned (env : Env) (b : Browser) (o : Client.ReqOptions) :
    (Client.apiRequest env b o).csrfWarned = (Client.afterAttach env b o).2.2.2 := by
  simp only [Client.apiRequest]
  split
  · rfl
  · split
    · split
      · split <;> rfl
      · rfl
    · rfl

/-! ## Claim C5 -/

/-- C5: for a mutating request for which no CSRF token is obtainable from the
session cache, the cookie, or the token endpoint, `apiRequest` still fetches
the endpoint (never silently drops the request), logs the missing-token
warning, and sends the first fetch without any `X-CSRF-Token` header. -/
theorem c5_missing_token_request_still_sent (env : Env) (b : Browser) (o : Client.ReqOptions)
    (hm : Client.isMutating (Client.normMethod o.method) = true)
    (hno : jsT (Client.csrfLookup env b).1 = false)
    (hov : ∀ kv ∈ o.headers, kv.1 ≠ "X-CSRF-Token") :
    1 ≤ mainCount (Client.apiRequest env b o).trace
    ∧ (Client.apiRequest env b o).csrfWarned = true
    ∧ (mainEvents (Client.apiRequest env b o).trace)[0]?
        = some (NetEvent.mainFetch (Client.normMethod o.method) (Client.baseHeaders b o))
    ∧ getHeader (Client.baseHeaders b o) "X-CSRF-Token" = none := by
  have ha := afterAttach_mut_miss env b o hm hno
  refine ⟨?_, ?_, ?_, baseHeaders_no_csrf b o hov⟩
  · rcases apiRequest_mainEvents env b o with h | ⟨h2, h⟩ <;> simp [mainCount, h]
  · rw [apiRequest_warned, ha]
  · have h := apiRequest_firstMain env b o
    rw [ha] at h
    exact h

/-- C5, witness: a POST with empty storages and a rejecting token endpoint is
still sent once and the warning flag set. -/
theorem c5_witness :
    1 ≤ mainCount (Client.apiRequest envNoToken emptyBrowser { method := some "POST" }).trace
    ∧ (Client.apiRequest envNoToken emptyBrowser { method := some "POST" }).csrfWarned = true :=
  ⟨(c5_missing_token_request_still_sent envNoToken emptyBrowser { method := some "POST" }
      (by decide) (by decide) (by simp)).1,
   (c5_missing_token_request_still_sent envNoToken emptyBrowser { method := some "POST" }
      (by decide) (by decide) (by simp)).2.1⟩

/-! ## Claim C6 -/

/-- C6: for every mutating request without a caller-supplied `X-CSRF-Token`
header, the attached `X-CSRF-Token` value equals the spec's resolution order
(session cache, then cookie, then — iff a bearer token is present — one
authenticated token-endpoint GET, else no header); a resolved value is cached
in session storage; the token endpoint is hit exactly once iff cache and
cookie miss and a bearer token is present; and the first fetch of the
endpoint carries exactly the attached headers. -/
theorem c6_resolution_order (env : Env) (b : Browser) (o : Client.ReqOptions)
    (hm : Client.isMutating (Client.normMethod o.method) = true)
    (hov : ∀ kv ∈ o.headers, kv.1 ≠ "X-CSRF-Token") :
    getHeader (Client.afterAttach env b o).1 "X-CSRF-Token"
      = (if jsT (specCsrfResolution env b) then specCsrfResolution env b else none)
    ∧ (jsT (specCsrfResolution env b) = true →
        (Client.afterAttach env b o).2.1.sessionStore "csrf_token" = specCsrfResolution env b)
    ∧ countCsrf (Client.afterAttach env b o).2.2.1
      = (if jsT (b.sessionStore "csrf_token") || jsT (Client.cookieCsrfValue b.cookie) then 0
         else if jsT (b.localStore "auth_token") then 1 else 0)
    ∧ (mainEvents (Client.apiRequest env b o).trace)[0]?
        = some (NetEvent.mainFetch (Client.normMethod o.method) (Client.afterAttach env b o).1) := by
  have hs := csrfLookup_spec env b
  cases ht : jsT (Client.csrfLookup env b).1 with
  | true =>
    have ha := afterAttach_mut_hit env b o hm ht
    have hts : jsT (specCsrfResolution env b) = true := by rw [← hs.1]; exact ht
    obtain ⟨heq, hsess⟩ := hs.2.1 hts
    refine ⟨?_, fun _ => ?_, ?_, apiRequest_firstMain env b o⟩
    · calc getHeader (Client.afterAttach env b o).1 "X-CSRF-Token"
          = some ((Client.csrfLookup env b).1.getD "") := by
            rw [ha]; exact getHeader_setHeader_self _ _ _
        _ = (Client.csrfLookup env b).1 := opt_getD_of_jsT ht
        _ = specCsrfResolution env b := heq
        _ = if jsT (specCsrfResolution env b) then specCsrfResolution env b else none := by
            rw [hts]; rfl
    · rw [ha]
      exact hsess
    · rw [ha]
      exact hs.2.2
  | false =>
    have ha := afterAttach_mut_miss env b o hm ht
    have htf : jsT (specCsrfResolution env b) = false := by rw [← hs.1]; exact ht
    refine ⟨?_, ?_, ?_, apiRequest_firstMain env b o⟩
    · rw [ha, baseHeaders_no_csrf b o hov, htf]
      rfl
    · intro hcon
      rw [htf] at hcon
      cases hcon
    · rw [ha]
      exact hs.2.2

/-- C6, witness: with only a bearer token present, a POST resolves its token
through one authenticated GET to the token endpoint, attaches it, and caches
it. -/
theorem c6_witness :
    getHeader (Client.afterAttach envCsrfReject bearerOnlyBrowser
      { method := some "POST" }).1 "X-CSRF-Token" = some "fresh"
    ∧ (Client.afterAttach envCsrfReject bearerOnlyBrowser
        { method := some "POST" }).2.1.sessionStore "csrf_token" = some "fresh"
    ∧ countCsrf (Client.afterAttach envCsrfReject bearerOnlyBrowser
        { method := some "POST" }).2.2.1 = 1 := by
  have h := c6_resolution_order envCsrfReject bearerOnlyBrowser { method := some "POST" }
    (by decide) (by simp)
  exact ⟨h.1.trans (by decide), (h.2.1 (by decide)).trans (by decide), h.2.2.1.trans (by decide)⟩

theorem apiRequest_ok_result (env : Env) (b : Browser) (o : Client.ReqOptions)
    (hok : (env.mainResp 0).ok = true) :
    (Client.apiRequest env b o).result = Client.parseReturn (env.mainResp 0) := by
  simp [Client.apiRequest, hok]

theorem apiRequest_plain_error (env : Env) (b : Browser) (o : Client.ReqOptions)
    (hok : (env.mainResp 0).ok = false)
    (hcond : ((env.mainResp 0).status == 403 && jsT (Client.firstDetail env)
        && jsIncludes ((Client.firstDetail env).getD "") "CSRF") = false) :
    (Client.apiRequest env b o).result
      = .error (Client.originalThrow ((env.mainResp 0).bodyJson.getD (Json.jobj []))
          (env.mainResp 0))
    ∧ (Client.apiRequest env b o).trace
      = (Client.afterAttach env b o).2.2.1
        ++ [NetEvent.mainFetch (Client.normMethod o.method) (Client.afterAttach env b o).1] := by
  simp only [Client.firstDetail] at hcond
  simp [Client.apiRequest, hok, hcond]

/-! ## Claim C3 -/

/-- C3, counterexample: a 500 whose JSON body has `detail` present but equal
to the empty string is surfaced with the synthesized `HTTP 500: ...` detail
rather than the backend-provided (empty) one, because the client tests the
field with JS truthiness. -/
theorem c3_counterexample :
    Client.firstDetail envEmptyDetail = some ""
    ∧ Client.resultErrDetail (Client.apiRequest envEmptyDetail emptyBrowser
        { method := some "GET" }).result = some "HTTP 500: Internal Server Error" := by
  exact ⟨rfl, rfl⟩

/-- C3, amended: a non-2xx response that is not a CSRF-403 is never retried,
and the thrown error's `detail` is the backend-provided one when the body
parses as JSON with a non-empty string `detail` field, and the synthesized
`HTTP <status>: <statusText>` string otherwise. -/
theorem c3_non_csrf_error (env : Env) (b : Browser) (o : Client.ReqOptions)
    (hok : (env.mainResp 0).ok = false)
    (hnot : ¬((env.mainResp 0).status = 403 ∧ jsT (Client.firstDetail env) = true
        ∧ jsIncludes ((Client.firstDetail env).getD "") "CSRF" = true)) :
    mainCount (Client.apiRequest env b o).trace = 1
    ∧ Client.resultErrDetail (Client.apiRequest env b o).result
        = (if jsT (Client.firstDetail env) then Client.firstDetail env
           else some (Client.synthDetail (env.mainResp 0))) := by
  have hcond : ((env.mainResp 0).status == 403 && jsT (Client.firstDetail env)
      && jsIncludes ((Client.firstDetail env).getD "") "CSRF") = false := by
    by_contra hc
    have hc2 : ((env.mainResp 0).status == 403 && jsT (Client.firstDetail env)
        && jsIncludes ((Client.firstDetail env).getD "") "CSRF") = true := by
      revert hc
      cases ((env.mainResp 0).status == 403 && jsT (Client.firstDetail env)
        && jsIncludes ((Client.firstDetail env).getD "") "CSRF") <;> simp
    simp only [Bool.and_eq_true, beq_iff_eq] at hc2
    exact hnot ⟨hc2.1.1, hc2.1.2, hc2.2⟩
  obtain ⟨hres, htr⟩ := apiRequest_plain_error env b o hok hcond
  constructor
  · rw [htr]
    simp [mainCount, mainEvents_append, afterAttach_trace, mainEvents_main_single]
  · rw [hres]
    simp only [Client.resultErrDetail, Client.originalThrow, Client.firstDetail]
    split
    · rfl
    · simp [Json.strField, Json.getField]

/-- C3, witness: a plain 404 with a JSON detail message is thrown unchanged
after a single fetch. -/
theorem c3_witness :
    mainCount (Client.apiRequest envNotFound emptyBrowser { method := some "GET" }).trace = 1
    ∧ Client.resultErrDetail (Client.apiRequest envNotFound emptyBrowser
        { method := some "GET" }).result = some "User not found" := by
  have h := c3_non_csrf_error envNotFound emptyBrowser { method := some "GET" }
    (by decide) (by decide)
  exact ⟨h.1, h.2.trans (by decide)⟩

/-! ## Claim C4 -/

/-- C4, counterexample: a 2xx response with content type `text/plain` and the
non-empty non-JSON body `"hello"` makes `apiRequest` throw a JSON parse error
instead of returning `{}`. -/
theorem c4_counterexample :
    (envPlainText.mainResp 0).ok = true
    ∧ (envPlainText.mainResp 0).bodyText = "hello"
    ∧ (envPlainText.mainResp 0).contentType = some "text/plain"
    ∧ (envPlainText.mainResp 0).bodyJson = none
    ∧ Client.isJsonErr (Client.apiRequest envPlainText emptyBrowser
        { method := some "GET" }).result = true := by
  exact ⟨rfl, rfl, rfl, rfl, rfl⟩

/-- C4, amended: on a 2xx first response, a body that parses as JSON is
returned whenever the content type mentions JSON or the body text is
non-empty; the empty object is returned only for an empty body with a
non-JSON content type; and a body that does not parse as JSON raises a parse
error in those same situations instead of yielding `{}`. -/
theorem c4_success_body_handling (env : Env) (b : Browser) (o : Client.ReqOptions)
    (hok : (env.mainResp 0).ok = true) :
    (∀ j, (env.mainResp 0).bodyJson = some j →
      (Client.ctIsJson (env.mainResp 0) = true ∨ (env.mainResp 0).bodyText ≠ "") →
      (Client.apiRequest env b o).result = .ok j)
    ∧ (Client.ctIsJson (env.mainResp 0) = false → (env.mainResp 0).bodyText = "" →
      (Client.apiRequest env b o).result = .ok (Json.jobj []))
    ∧ ((env.mainResp 0).bodyJson = none →
      (Client.ctIsJson (env.mainResp 0) = true ∨ (env.mainResp 0).bodyText ≠ "") →
      (Client.apiRequest env b o).result = .error Client.Thrown.jsonErr) := by
  have hres := apiRequest_ok_result env b o hok
  refine ⟨?_, ?_, ?_⟩
  · intro j hj hcase
    rw [hres]
    rcases hcase with hct | hbt
    · simp [Client.parseReturn, hct, hj]
    · cases hct : Client.ctIsJson (env.mainResp 0) <;>
        simp [Client.parseReturn, hct, hbt, hj]
  · intro hct hbt
    rw [hres]
    simp [Client.parseReturn, hct, hbt]
  · intro hj hcase
    rw [hres]
    rcases hcase with hct | hbt
    · simp [Client.parseReturn, hct, hj]
    · cases hct : Client.ctIsJson (env.mainResp 0) <;>
        simp [Client.parseReturn, hct, hbt, hj]

/-- C4, witness: a JSON 2xx body is parsed and returned. -/
theorem c4_witness :
    (Client.apiRequest envJsonDoc emptyBrowser { method := some "GET" }).result
      = .ok (Json.jobj [("users", Json.jarr []), ("total", Json.jnum 57)]) :=
  (c4_success_body_handling envJsonDoc emptyBrowser { method := some "GET" }
    (by decide)).1 _ rfl (Or.inl (by decide))

/-- The shape of `apiRequest` in the 403-CSRF retry branch. -/
theorem apiRequest_retry_shape (env : Env) (b : Browser) (o : Client.ReqOptions)
    (hok : (env.mainResp 0).ok = false)
    (hcond : ((env.mainResp 0).status == 403 && jsT (Client.firstDetail env)
        && jsIncludes ((Client.firstDetail env).getD "") "CSRF") = true)
    (hgate : (jsT (Client.retryEnsureResult env b o)
        && Client.normMethod o.method != "GET") = true) :
    (Client.apiRequest env b o).trace
      = (Client.ensureCsrfToken env (Client.afterAttach env b o).2.1
          ((Client.afterAttach env b o).2.2.1
            ++ [NetEvent.mainFetch (Client.normMethod o.method)
                 (Client.afterAttach env b o).1])).2.2
        ++ [NetEvent.mainFetch (Client.normMethod o.method)
             (setHeader (Client.afterAttach env b o).1 "X-CSRF-Token"
               ((Client.retryEnsureResult env b o).getD ""))]
    ∧ ((env.mainResp 1).ok = false →
        (Client.apiRequest env b o).result = .error (Client.retryThrown (env.mainResp 1))) := by
  simp only [Client.firstDetail] at hcond
  simp only [Client.retryEnsureResult] at hgate
  constructor
  · simp only [Client.apiRequest, Client.retryEnsureResult, hok, hcond, hgate,
      Bool.false_eq_true, if_false, if_true]
    split <;> rfl
  · intro h2
    simp [Client.apiRequest, Client.retryEnsureResult, hok, hcond, hgate, h2]

/-! ## Claim C2 -/

/-- C2, counterexample: a GET whose first response is a CSRF-403 and for which
a fresh token is obtainable (the client even fetches one) is never resent —
the endpoint is fetched exactly once, not twice as the claim requires. -/
theorem c2_counterexample :
    (envCsrfReject.mainResp 0).status = 403
    ∧ jsT (Client.firstDetail envCsrfReject) = true
    ∧ jsIncludes ((Client.firstDetail envCsrfReject).getD "") "CSRF" = true
    ∧ jsT (Client.retryEnsureResult envCsrfReject bearerOnlyBrowser
        { method := some "GET" }) = true
    ∧ mainCount (Client.apiRequest envCsrfReject bearerOnlyBrowser
        { method := some "GET" }).trace = 1 := by
  decide

/-- C2, amended: for every `apiRequest` whose method is not GET, whose first
response is a 403 with a JSON `detail` containing `CSRF`, and for which the
token recovery yields a truthy token, the request is resent exactly once with
the obtained token in `X-CSRF-Token`, and a non-2xx retry response is
surfaced as the thrown error; no request is ever fetched more than twice. -/
theorem c2_retry_exactly_once :
    (∀ (env : Env) (b : Browser) (o : Client.ReqOptions),
      Client.normMethod o.method ≠ "GET" →
      (env.mainResp 0).status = 403 →
      jsT (Client.firstDetail env) = true →
      jsIncludes ((Client.firstDetail env).getD "") "CSRF" = true →
      jsT (Client.retryEnsureResult env b o) = true →
        mainCount (Client.apiRequest env b o).trace = 2
        ∧ (mainEvents (Client.apiRequest env b o).trace)[1]?
            = some (NetEvent.mainFetch (Client.normMethod o.method)
                (setHeader (Client.afterAttach env b o).1 "X-CSRF-Token"
                  ((Client.retryEnsureResult env b o).getD "")))
        ∧ getHeader (setHeader (Client.afterAttach env b o).1 "X-CSRF-Token"
              ((Client.retryEnsureResult env b o).getD "")) "X-CSRF-Token"
            = some ((Client.retryEnsureResult env b o).getD "")
        ∧ ((env.mainResp 1).ok = false →
            (Client.apiRequest env b o).result = .error (Client.retryThrown (env.mainResp 1))))
    ∧ (∀ (env : Env) (b : Browser) (o : Client.ReqOptions),
        mainCount (Client.apiRequest env b o).trace ≤ 2) := by
  constructor
  · intro env b o hget h403 hdet hcsrf htok
    have hok : (env.mainResp 0).ok = false := by
      simp [HttpResponse.ok, h403]
    have hcond : ((env.mainResp 0).status == 403 && jsT (Client.firstDetail env)
        && jsIncludes ((Client.firstDetail env).getD "") "CSRF") = true := by
      simp [h403, hdet, hcsrf]
    have hgate : (jsT (Client.retryEnsureResult env b o)
        && Client.normMethod o.method != "GET") = true := by
      simp [htok, hget]
    obtain ⟨htr, hres⟩ := apiRequest_retry_shape env b o hok hcond hgate
    obtain ⟨ext, he, hm⟩ := ensure_trace env (Client.afterAttach env b o).2.1
      ((Client.afterAttach env b o).2.2.1
        ++ [NetEvent.mainFetch (Client.normMethod o.method) (Client.afterAttach env b o).1])
    have hmain : mainEvents (Client.apiRequest env b o).trace
        = [NetEvent.mainFetch (Client.normMethod o.method) (Client.afterAttach env b o).1,
           NetEvent.mainFetch (Client.normMethod o.method)
             (setHeader (Client.afterAttach env b o).1 "X-CSRF-Token"
               ((Client.retryEnsureResult env b o).getD ""))] := by
      rw [htr, he]
      simp [mainEvents_append, afterAttach_trace, hm, mainEvents_main_single,
        mainEvents_cons_main, mainEvents_nil]
    refine ⟨by simp [mainCount, hmain], by simp [hmain], getHeader_setHeader_self _ _ _, hres⟩
  · intro env b o
    exact apiRequest_mainCount_le env b o

/-- C2, witness: a POST rejected twice with CSRF-403 is fetched exactly twice
and the second rejection is surfaced. -/
theorem c2_witness :
    mainCount (Client.apiRequest envCsrfReject bearerOnlyBrowser
      { method := some "POST" }).trace = 2
    ∧ (Client.apiRequest envCsrfReject bearerOnlyBrowser { method := some "POST" }).result
        = .error (Client.retryThrown (envCsrfReject.mainResp 1)) := by
  have h := c2_retry_exactly_once.1 envCsrfReject bearerOnlyBrowser { method := some "POST" }
    (by decide) (by decide) (by decide) (by decide) (by decide)
  exact ⟨h.1, h.2.2.2 (by decide)⟩

theorem chPre_append (l r : List Char) : chPre l (l ++ r) = true := by
  induction l with
  | nil => rfl
  | cons a as ih => simp [chPre, ih]

theorem dropWhile_all_false (p : Char → Bool) (l : List Char) (h : ∀ x ∈ l, p x = false) :
    l.dropWhile p = l := by
  cases l with
  | nil => rfl
  | cons x xs => simp [List.dropWhile, h x (List.mem_cons_self _ _)]

theorem jsTrim_of_no_ws (s : String) (h : ∀ x ∈ s.data, x.isWhitespace = false) :
    jsTrim s = s := by
  unfold jsTrim
  rw [dropWhile_all_false _ _ h,
    dropWhile_all_false _ _ (fun x hx => h x (List.mem_reverse.mp hx)),
    List.reverse_reverse]

theorem splitChar_no_sep (c : Char) (l : List Char) (h : ∀ x ∈ l, x ≠ c) :
    splitChar c l = [l] := by
  induction l with
  | nil => rfl
  | cons x xs ih =>
    have hx : (x == c) = false := by simp [h x (List.mem_cons_self _ _)]
    simp [splitChar, hx, ih (fun y hy => h y (List.mem_cons_of_mem _ hy))]

theorem splitChar_mid (c : Char) (l r : List Char) (h : ∀ x ∈ l, x ≠ c) :
    splitChar c (l ++ c :: r) = l :: splitChar c r := by
  induction l with
  | nil => simp [splitChar]
  | cons x xs ih =>
    have hx : (x == c) = false := by simp [h x (List.mem_cons_self _ _)]
    simp [splitChar, hx, ih (fun y hy => h y (List.mem_cons_of_mem _ hy))]

theorem plainChar_spec (x : Char) (h : plainChar x = true) :
    x ≠ '=' ∧ x ≠ ';' ∧ x.isWhitespace = false := by
  simp only [plainChar, Bool.and_eq_true, Bool.not_eq_true'] at h
  exact ⟨by simpa using h.1.1, by simpa using h.1.2, h.2⟩

theorem semiFree_spec (x : Char) (h : semiFree x = true) :
    x ≠ ';' ∧ x.isWhitespace = false := by
  simp only [semiFree, Bool.and_eq_true, Bool.not_eq_true'] at h
  exact ⟨by simpa using h.1, h.2⟩

/-- The cookie parser keeps only the segment of the `csrf_token` cookie's
value that stands before the first `=` inside it. -/
theorem cookieCsrfValue_split (v w : String)
    (hv : ∀ x ∈ v.data, plainChar x = true)
    (hw : ∀ x ∈ w.data, semiFree x = true) :
    Client.cookieCsrfValue ("csrf_token=" ++ v ++ "=" ++ w) = some v := by
  set ck := "csrf_token=" ++ v ++ "=" ++ w with hck
  have hvp : ∀ x ∈ v.data, x ≠ '=' ∧ x ≠ ';' ∧ x.isWhitespace = false :=
    fun x hx => plainChar_spec x (hv x hx)
  have hwp : ∀ x ∈ w.data, x ≠ ';' ∧ x.isWhitespace = false :=
    fun x hx => semiFree_spec x (hw x hx)
  have hdata : ck.data = ("csrf_token=" : String).data ++ (v.data ++ '=' :: w.data) := by
    simp [hck, String.data_append, List.append_assoc]
  have hmem : ∀ x ∈ ck.data,
      x ∈ ("csrf_token=" : String).data ∨ x ∈ v.data ∨ x = '=' ∨ x ∈ w.data := by
    intro x hx
    rw [hdata] at hx
    rcases List.mem_append.mp hx with h1 | h2
    · exact Or.inl h1
    rcases List.mem_append.mp h2 with h3 | h4
    · exact Or.inr (Or.inl h3)
    rcases List.mem_cons.mp h4 with h5 | h6
    · exact Or.inr (Or.inr (Or.inl h5))
    · exact Or.inr (Or.inr (Or.inr h6))
  have hlit : ∀ x ∈ ("csrf_token=" : String).data, x ≠ ';' ∧ x.isWhitespace = false := by
    decide
  have hnosemi : ∀ x ∈ ck.data, x ≠ ';' := by
    intro x hx
    rcases hmem x hx with h | h | h | h
    · exact (hlit x h).1
    · exact (hvp x h).2.1
    · subst h; decide
    · exact (hwp x h).1
  have hnows : ∀ x ∈ ck.data, x.isWhitespace = false := by
    intro x hx
    rcases hmem x hx with h | h | h | h
    · exact (hlit x h).2
    · exact (hvp x h).2.2
    · subst h; decide
    · exact (hwp x h).2
  have hsplit : jsSplit ck ';' = [ck] := by
    simp [jsSplit, splitChar_no_sep ';' ck.data hnosemi]
  have htrim : jsTrim ck = ck := jsTrim_of_no_ws ck hnows
  have hsw : jsStartsWith (jsTrim ck) "csrf_token=" = true := by
    rw [htrim]
    simp only [jsStartsWith]
    rw [hdata]
    exact chPre_append _ _
  have hdata2 : ck.data = ("csrf_token" : String).data ++ '=' :: (v.data ++ '=' :: w.data) := by
    rw [hdata]
    rfl
  have hsplit2 : jsSplit ck '=' =
      "csrf_token" :: v :: (splitChar '=' w.data).map (fun l => String.mk l) := by
    simp only [jsSplit]
    rw [hdata2, splitChar_mid _ _ _ (by decide),
      splitChar_mid _ _ _ (fun x hx => (hvp x hx).1)]
    rfl
  simp [Client.cookieCsrfValue, hsplit, hsw, hsplit2]

/-! ## Claim C9 -/

/-- C9: when the session cache holds no truthy token and the `csrf_token`
cookie's value itself contains an `=`, the cookie parser returns only the
portion of the value before that `=`; that truncated value is what
`getCsrfToken` returns and caches in session storage, and (for a mutating
request) what is sent in the `X-CSRF-Token` header. -/
theorem c9_cookie_value_truncated (env : Env) (b : Browser) (o : Client.ReqOptions)
    (v w : String)
    (hcache : jsT (b.sessionStore "csrf_token") = false)
    (hcookie : b.cookie = "csrf_token=" ++ v ++ "=" ++ w)
    (hv : ∀ x ∈ v.data, plainChar x = true)
    (hw : ∀ x ∈ w.data, semiFree x = true)
    (hv0 : v ≠ "")
    (hm : Client.isMutating (Client.normMethod o.method) = true) :
    Client.cookieCsrfValue b.cookie = some v
    ∧ (Client.getCsrfToken b).1 = some v
    ∧ (Client.getCsrfToken b).2.sessionStore "csrf_token" = some v
    ∧ getHeader (Client.afterAttach env b o).1 "X-CSRF-Token" = some v := by
  have hc : Client.cookieCsrfValue b.cookie = some v := by
    rw [hcookie]
    exact cookieCsrfValue_split v w hv hw
  have hg := getCsrfToken_cookie b hcache v hc
  have hlook : Client.csrfLookup env b = (some v, b.setSession "csrf_token" v, []) := by
    simp [Client.csrfLookup, hg, hv0]
  have ht : jsT (Client.csrfLookup env b).1 = true := by simp [hlook, hv0]
  have ha := afterAttach_mut_hit env b o hm ht
  refine ⟨hc, by rw [hg], by rw [hg]; simp, ?_⟩
  rw [ha, getHeader_setHeader_self, hlook]
  rfl

/-- C9, witness: the cookie `csrf_token=abc=def` yields, caches and sends
`abc`. -/
theorem c9_witness :
    Client.cookieCsrfValue "csrf_token=abc=def" = some "abc"
    ∧ (Client.getCsrfToken
        ⟨fun _ => none, fun _ => none, "csrf_token=abc=def"⟩).1 = some "abc"
    ∧ getHeader (Client.afterAttach envNoToken
        ⟨fun _ => none, fun _ => none, "csrf_token=abc=def"⟩
        { method := some "DELETE" }).1 "X-CSRF-Token" = some "abc" := by
  have h := c9_cookie_value_truncated envNoToken
    ⟨fun _ => none, fun _ => none, "csrf_token=abc=def"⟩ { method := some "DELETE" }
    "abc" "def" (by decide) (by decide) (by decide) (by decide) (by decide) (by decide)
  exact ⟨h.1, h.2.1, h.2.2.2⟩

/-! ## Claim C1 -/

/-- C1, counterexample: a `login()` whose backend response succeeds with
`user.is_admin = false` leaves the store authenticated with that user and the
access token persisted — the session is not cleared. -/
theorem c1_counterexample :
    nonAdminLoginData.user.is_admin = some false
    ∧ (AuthStore.login (.ok nonAdminLoginData) initialAuthState emptyBrowser).1.isAuthenticated
        = true
    ∧ (AuthStore.login (.ok nonAdminLoginData) initialAuthState emptyBrowser).1.user
        = some nonAdminLoginData.user
    ∧ (AuthStore.login (.ok nonAdminLoginData) initialAuthState
        emptyBrowser).2.1.localStore "auth_token" = some "tokA" := by
  refine ⟨rfl, rfl, rfl, ?_⟩
  decide

/-- C1, amended: `login()` marks the session authenticated with the returned
user and persists the access token for every successful backend response,
with no admin check; the client-side non-admin teardown happens in
`fetchUser()`, which clears the session and both stored tokens whenever
`is_admin` is not true. -/
theorem c1_login_no_admin_gate :
    (∀ (st : AuthState) (b : Browser) (d : AuthApi.LoginData),
      (AuthStore.login (.ok d) st b).1.isAuthenticated = true
      ∧ (AuthStore.login (.ok d) st b).1.user = some d.user
      ∧ (AuthStore.login (.ok d) st b).2.1.localStore "auth_token" = some d.access_token)
    ∧ (∀ (st : AuthState) (b : Browser) (u : AuthApi.User),
      u.is_admin.getD false = false →
        (AuthStore.fetchUser (.ok u) st b).1.isAuthenticated = false
        ∧ (AuthStore.fetchUser (.ok u) st b).1.user = none
        ∧ (AuthStore.fetchUser (.ok u) st b).2.localStore "auth_token" = none
        ∧ (AuthStore.fetchUser (.ok u) st b).2.localStore "refresh_token" = none) := by
  constructor
  · intro st b d
    refine ⟨rfl, rfl, ?_⟩
    simp only [AuthStore.login, AuthApi.login, Client.setAuthToken, Browser.setLocal,
      Browser.setSession]
    split <;> split <;> simp
  · intro st b u h
    simp [AuthStore.fetchUser, h, AuthApi.logout, Client.clearAuthTokens, Browser.removeLocal]

/-- C1, witness for the amended theorem at concrete inputs. -/
theorem c1_witness :
    ((AuthStore.login (.ok nonAdminLoginData) initialAuthState emptyBrowser).1.isAuthenticated
      = true)
    ∧ ((⟨"u2", "e2@example.com", "Bob", none⟩ : AuthApi.User).is_admin.getD false = false
      ∧ (AuthStore.fetchUser (.ok ⟨"u2", "e2@example.com", "Bob", none⟩) initialAuthState
          emptyBrowser).1.isAuthenticated = false) :=
  ⟨(c1_login_no_admin_gate.1 initialAuthState emptyBrowser nonAdminLoginData).1,
   by decide,
   (c1_login_no_admin_gate.2 initialAuthState emptyBrowser
     ⟨"u2", "e2@example.com", "Bob", none⟩ (by decide)).1⟩

/-! ## Claim C7 -/

/-- C7: every `fetchUser()` that fails, or that yields a user without a true
`is_admin` flag, tears the session down: the store ends with no user and
unauthenticated, and both stored tokens are removed. -/
theorem c7_fetchUser_teardown (st : AuthState) (b : Browser)
    (resp : Except Client.Thrown AuthApi.User)
    (h : (∃ e, resp = Except.error e)
      ∨ (∃ u, resp = Except.ok u ∧ u.is_admin.getD false = false)) :
    (AuthStore.fetchUser resp st b).1.user = none
    ∧ (AuthStore.fetchUser resp st b).1.isAuthenticated = false
    ∧ (AuthStore.fetchUser resp st b).2.localStore "auth_token" = none
    ∧ (AuthStore.fetchUser resp st b).2.localStore "refresh_token" = none := by
  rcases h with ⟨e, he⟩ | ⟨u, hu, hadm⟩
  · subst he
    simp [AuthStore.fetchUser, AuthApi.logout, Client.clearAuthTokens, Browser.removeLocal]
  · subst hu
    simp [AuthStore.fetchUser, hadm, AuthApi.logout, Client.clearAuthTokens,
      Browser.removeLocal]

/-- C7, witness: a non-admin `fetchUser` result on a previously authenticated
session with stored tokens. -/
theorem c7_witness :
    (AuthStore.fetchUser (.ok ⟨"u3", "m@example.com", "Mallory", some false⟩)
      { user := none, isAuthenticated := true, isLoading := false, error := none }
      ((emptyBrowser.setLocal "auth_token" "A").setLocal "refresh_token" "R")).1.isAuthenticated
        = false
    ∧ (AuthStore.fetchUser (.ok ⟨"u3", "m@example.com", "Mallory", some false⟩)
      { user := none, isAuthenticated := true, isLoading := false, error := none }
      ((emptyBrowser.setLocal "auth_token" "A").setLocal "refresh_token" "R")).2.localStore
        "auth_token" = none :=
  ⟨(c7_fetchUser_teardown _ _ _ (Or.inr ⟨_, rfl, by decide⟩)).2.1,
   (c7_fetchUser_teardown _ _ _ (Or.inr ⟨_, rfl, by decide⟩)).2.2.1⟩

/-! ## Claim C8 -/

/-- C8: with `limit = 20` and `total = 57`, `totalPages` is `ceil(57/20) = 3`
and the Next button is disabled exactly when the page is at least 3; in
general it is disabled iff `limit * page` already covers `total`, i.e. iff
`page ≥ ceil(total/limit)`. -/
theorem c8_pagination :
    UsersPage.totalPages 57 = 3
    ∧ (∀ p : Nat, UsersPage.nextDisabled p 57 = true ↔ 3 ≤ p)
    ∧ (∀ p t : Nat, UsersPage.nextDisabled p t = true ↔ t ≤ UsersPage.limit * p) := by
  refine ⟨by decide, ?_, ?_⟩
  · intro p
    have h3 : UsersPage.totalPages 57 = 3 := by decide
    simp [UsersPage.nextDisabled, h3]
  · intro p t
    simp only [UsersPage.nextDisabled, UsersPage.totalPages, UsersPage.limit,
      decide_eq_true_eq]
    omega

/-- C8, witness: page 3 of 57 users has Next disabled. -/
theorem c8_witness : UsersPage.nextDisabled 3 57 = true :=
  (c8_pagination.2.1 3).mpr (by decide)

/-! ## Claim C10 -/

/-- C10: `logout()` resets the store's user, isAuthenticated and error fields
and removes exactly the two durable token entries; every other localStorage
key, all of sessionStorage (in particular the cached `csrf_token`), and the
cookies are left unchanged. -/
theorem c10_logout_frame (st : AuthState) (b : Browser) :
    (AuthStore.logout st b).1.user = none
    ∧ (AuthStore.logout st b).1.isAuthenticated = false
    ∧ (AuthStore.logout st b).1.error = none
    ∧ (AuthStore.logout st b).2.localStore "auth_token" = none
    ∧ (AuthStore.logout st b).2.localStore "refresh_token" = none
    ∧ (∀ k, k ≠ "auth_token" → k ≠ "refresh_token" →
        (AuthStore.logout st b).2.localStore k = b.localStore k)
    ∧ (∀ k, (AuthStore.logout st b).2.sessionStore k = b.sessionStore k)
    ∧ (AuthStore.logout st b).2.cookie = b.cookie := by
  refine ⟨rfl, rfl, rfl,
    by simp [AuthStore.logout, AuthApi.logout, Client.clearAuthTokens, Browser.removeLocal],
    by simp [AuthStore.logout, AuthApi.logout, Client.clearAuthTokens, Browser.removeLocal],
    ?_, fun k => rfl, rfl⟩
  intro k h1 h2
  simp [AuthStore.logout, AuthApi.logout, Client.clearAuthTokens, Browser.removeLocal, h1, h2]

/-- C10, witness: after logout in a tab whose session cache holds a CSRF
token, the cache still holds it, an unrelated localStorage key survives, and
the auth token is gone. -/
theorem c10_witness :
    (AuthStore.logout initialAuthState
      (((emptyBrowser.setLocal "auth_token" "A").setLocal "theme" "dark").setSession
        "csrf_token" "C")).2.sessionStore "csrf_token" = some "C"
    ∧ (AuthStore.logout initialAuthState
      (((emptyBrowser.setLocal "auth_token" "A").setLocal "theme" "dark").setSession
        "csrf_token" "C")).2.localStore "theme" = some "dark"
    ∧ (AuthStore.logout initialAuthState
      (((emptyBrowser.setLocal "auth_token" "A").setLocal "theme" "dark").setSession
        "csrf_token" "C")).2.localStore "auth_token" = none := by
  have h := c10_logout_frame initialAuthState
    (((emptyBrowser.setLocal "auth_token" "A").setLocal "theme" "dark").setSession
      "csrf_token" "C")
  exact ⟨(h.2.2.2.2.2.2.1 "csrf_token").trans (by decide),
    (h.2.2.2.2.2.1 "theme" (by decide) (by decide)).trans (by decide),
    h.2.2.2.1⟩

